import Mathlib

/-!
Shallow embedding of the weather-bot geo-keyed API cache: `src/storage.py`
and the cache-facing operations of `src/weather_app.py`.

Modelling conventions:
- Python floats (coordinates, timestamps) are modelled as exact rationals.
- JSON values are modelled by the inductive type `Json`; Python `dict` /
  `list` operations on them return `Except PyErr _` so that the exceptions
  the source can raise (`KeyError`, `TypeError`, `AttributeError`,
  `IndexError`, non-`FileNotFoundError` `OSError`) are explicit.
- The on-disk cache directory is an association list from cache keys to
  file states; a file can be present-but-unreadable (`open` raises an
  `OSError` other than `FileNotFoundError`), present-but-corrupt
  (`json.load` raises `JSONDecodeError`), or parsed.  Deleting a file
  (`os.remove`) is modelled as succeeding.
- A write-fault environment `wf : CacheKey → Bool` says for which keys
  `open(path, "w")` raises an `OSError`.
- The remote HTTP layer of `make_api_request` (retries, status codes) is
  outside the state model: the function is given the parsed JSON body of
  the eventual successful response as an oracle argument.
-/

/-- JSON values, as produced by Python's `json.load` / consumed by `json.dump`. -/
inductive Json where
  | null
  | bool (b : Bool)
  | num (q : ℚ)
  | str (s : String)
  | arr (xs : List Json)
  | obj (fields : List (String × Json))

/-- Python truthiness of a JSON value (`if cached:`): `None`, `False`, `0`,
empty string, empty list and empty dict are falsy. -/
def Json.isTruthy : Json → Bool
  | .null => false
  | .bool b => b
  | .num q => decide (q ≠ 0)
  | .str s => decide (s ≠ "")
  | .arr xs => !xs.isEmpty
  | .obj fs => !fs.isEmpty

/-- First binding of a key in a Python dict (keys are unique in dicts built
by the source, and lookup takes the first binding either way). -/
def lookupField : List (String × Json) → String → Option Json
  | [], _ => none
  | (k', v) :: rest, k => if k' = k then some v else lookupField rest k

/-- Python dict item assignment `d[k] = v`: replaces the existing binding in
place or appends a new one (insertion order is preserved). -/
def setField : List (String × Json) → String → Json → List (String × Json)
  | [], k, v => [(k, v)]
  | (k', v') :: rest, k, v =>
      if k' = k then (k, v) :: rest else (k', v') :: setField rest k v

/-- Python exceptions the embedded code can raise. -/
inductive PyErr where
  /-- an `OSError` that is not a `FileNotFoundError`, e.g. `PermissionError` -/
  | osError
  | typeError
  | attributeError
  | keyError
  | indexError
  /-- the bare `Exception` raised by `make_api_request` on falsy data -/
  | exception
deriving DecidableEq

/-- Python `j.get(k, dflt)`: `AttributeError` when `j` is not a dict. -/
def dictGetD (j : Json) (k : String) (dflt : Json) : Except PyErr Json :=
  match j with
  | .obj fs => .ok ((lookupField fs k).getD dflt)
  | _ => .error .attributeError

/-- Python `j.get(k)` (implicit `None` default): `AttributeError` when `j`
is not a dict. -/
def dictGet (j : Json) (k : String) : Except PyErr (Option Json) :=
  match j with
  | .obj fs => .ok (lookupField fs k)
  | _ => .error .attributeError

/-- Python subscript `j[k]` with a string key: `KeyError` when the key is
absent, `TypeError` when `j` is not a dict. -/
def subscrStr (j : Json) (k : String) : Except PyErr Json :=
  match j with
  | .obj fs =>
      match lookupField fs k with
      | some v => .ok v
      | none => .error .keyError
  | _ => .error .typeError

/-- Python subscript `j[i]` with an integer index: `IndexError` out of
range, `KeyError` on a dict, `TypeError` otherwise. -/
def subscrIdx (j : Json) (i : ℕ) : Except PyErr Json :=
  match j with
  | .arr xs =>
      match xs.get? i with
      | some v => .ok v
      | none => .error .indexError
  | .obj _ => .error .keyError
  | _ => .error .typeError

/-- Python item assignment `j[k] = v`: `TypeError` when `j` is not a dict. -/
def setItem (j : Json) (k : String) (v : Json) : Except PyErr Json :=
  match j with
  | .obj fs => .ok (.obj (setField fs k v))
  | _ => .error .typeError

/-- Numeric value of a JSON value in Python arithmetic (`bool` coerces to
0/1); `TypeError` otherwise (e.g. `now - "abc"`). -/
def toNum (j : Json) : Except PyErr ℚ :=
  match j with
  | .num q => .ok q
  | .bool b => .ok (if b then 1 else 0)
  | _ => .error .typeError

/-- Decides `a - b < c` on rationals by integer cross-multiplication (the
algebraic operations on `ℚ` are kept out of executable positions). -/
def subLt (a b c : ℚ) : Bool :=
  (a.num * (b.den : ℤ) - (a.den : ℤ) * b.num) * (c.den : ℤ) <
    c.num * ((a.den : ℤ) * (b.den : ℤ))

/-- Round-half-to-even of the fraction `num/den` (for `den > 0`): the
rounding Python's `round` performs at the relevant precision. -/
def rndHalfEvenFrac (num den : ℤ) : ℤ :=
  let n := num.fdiv den
  let twiceRem := 2 * (num - n * den)
  if twiceRem < den then n
  else if den < twiceRem then n + 1
  else if n % 2 = 0 then n else n + 1

/-- Integer number of hundredths of `x` after rounding to 2 decimal places;
this integer determines the `"%.2f"` rendering of the rounded value. -/
def hundredths (x : ℚ) : ℤ := rndHalfEvenFrac (x.num * 100) (x.den : ℤ)

/-- Models Python `round(x, 2)` (exact rationals; the source's
binary-float representation noise at `.xx5` boundaries is outside the
model, as the spec leaves the rounding mode there unspecified). -/
def round2 (x : ℚ) : ℚ := mkRat (hundredths x) 100

/-- Models `storage.normalize_coordinates`: round each coordinate to
2 decimal places. -/
def normalize_coordinates (lat lon : ℚ) : ℚ × ℚ := (round2 lat, round2 lon)

/-- Cache key contents. The source builds the string
`f"{norm_lat:.2f}_{norm_lon:.2f}_{endpoint}"` and uses its MD5 hex digest
as the file name.  The `"%.2f"` rendering of a 2-decimal value is
determined by its integer number of hundredths, the key string decomposes
uniquely into its three parts, and the MD5 digest is deterministic and
treated as collision-free (the spec makes digest collisions
non-load-bearing), so a key is modelled as the triple the key string
encodes. -/
structure CacheKey where
  latHundredths : ℤ
  lonHundredths : ℤ
  endpoint : String
deriving DecidableEq

/-- Models `storage._get_cache_key`: normalize the coordinates, format them
to two decimals and pair with the endpoint tag. -/
def _get_cache_key (lat lon : ℚ) (endpoint : String) : CacheKey :=
  let norm := normalize_coordinates lat lon
  ⟨hundredths norm.1, hundredths norm.2, endpoint⟩

/-- Models `storage.CACHE_MAX_AGE_SECONDS = 600` (the TTL `get_cached_data`
and `cleanup_old_cache` enforce). -/
def CACHE_MAX_AGE_SECONDS : ℚ := 600

/-- Models `weather_app.CACHE_MAX_AGE_HOURS = 3` (declared there, used by
nothing in the cache paths). -/
def CACHE_MAX_AGE_HOURS : ℚ := 3

/-- State of one cache file. -/
inductive FileState where
  /-- present, but `open` raises an `OSError` other than `FileNotFoundError` -/
  | unreadable
  /-- present, but the content is not valid JSON (`json.load` raises) -/
  | corrupt
  /-- present with content parsing to the given JSON value -/
  | parsed (j : Json)

/-- The cache directory: one entry per file name (derived key). -/
abbrev Dir := List (CacheKey × FileState)

/-- File with the given name, if present. -/
def lookupFile : Dir → CacheKey → Option FileState
  | [], _ => none
  | (k', st) :: rest, k => if k' = k then some st else lookupFile rest k

/-- Models `os.remove`: drop the file with the given name. -/
def removeFile : Dir → CacheKey → Dir
  | [], _ => []
  | (k', st) :: rest, k =>
      if k' = k then removeFile rest k else (k', st) :: removeFile rest k

/-- Result of a completed `open(path, "w")` + `json.dump`: the file now
holds the given state, whatever was there before is gone. -/
def writeFile (d : Dir) (k : CacheKey) (st : FileState) : Dir :=
  (k, st) :: removeFile d k

/-- Models `storage.get_cached_data`.  The `except` clause of the source
catches exactly `FileNotFoundError`, `json.JSONDecodeError` and `KeyError`;
every other exception (in particular any other `OSError`, `TypeError` and
`AttributeError`) propagates to the caller.  `os.remove` of an expired
entry is modelled as succeeding. -/
def get_cached_data (lat lon : ℚ) (endpoint : String) (now : ℚ) (d : Dir) :
    Except PyErr (Option Json × Dir) :=
  let key := _get_cache_key lat lon endpoint
  match lookupFile d key with
  | none => .ok (none, d)
  | some .unreadable => .error .osError
  | some .corrupt => .ok (none, d)
  | some (.parsed j) => do
      let ca ← dictGetD j "cached_at" (.num 0)
      let caq ← toNum ca
      if subLt now caq CACHE_MAX_AGE_SECONDS then do
        let dat ← dictGet j "data"
        .ok (dat, d)
      else
        .ok (none, removeFile d key)

/-- The record JSON `storage.save_cached_data` builds before dumping it. -/
def cacheRecord (lat lon : ℚ) (endpoint : String) (now : ℚ) (data : Json) :
    Json :=
  let norm := normalize_coordinates lat lon
  .obj [("lat", .num norm.1), ("lon", .num norm.2),
        ("endpoint", .str endpoint), ("cached_at", .num now), ("data", data)]

/-- Models `storage.save_cached_data`.  The source has no exception
handling: a failing `open(path, "w")` propagates. -/
def save_cached_data (wf : CacheKey → Bool) (lat lon : ℚ) (endpoint : String)
    (data : Json) (now : ℚ) (d : Dir) : Except PyErr Dir :=
  let key := _get_cache_key lat lon endpoint
  if wf key then .error .osError
  else .ok (writeFile d key (.parsed (cacheRecord lat lon endpoint now data)))

/-- The sequence of directory states the file system passes through while
`save_cached_data` runs without a write fault: the source opens the final
path directly with mode `"w"`, which truncates the destination in place
(leaving content that does not parse), and `json.dump` then completes the
record.  There is no temporary file and no rename. -/
def save_cached_data_states (lat lon : ℚ) (endpoint : String) (data : Json)
    (now : ℚ) (d : Dir) : List Dir :=
  let key := _get_cache_key lat lon endpoint
  [d, writeFile d key .corrupt,
   writeFile d key (.parsed (cacheRecord lat lon endpoint now data))]

/-- The endpoint list hard-coded in `storage.clear_user_cache`. -/
def cachedEndpoints : List String := ["weather", "forecast", "air_pollution"]

/-- Models `storage.clear_user_cache`: remove the files for the three
coordinate-keyed endpoints at the (old) coordinates; removing an absent
file is a no-op (`os.path.exists` guard). -/
def clear_user_cache (old_lat old_lon : ℚ) (d : Dir) : Dir :=
  cachedEndpoints.foldl
    (fun acc endpoint => removeFile acc (_get_cache_key old_lat old_lon endpoint)) d

/-- One iteration of the `cleanup_old_cache` loop body on a file's state:
`.ok true` means the file is removed and counted.  The source's inner
`except` clause catches `json.JSONDecodeError`, `KeyError` and `OSError`
(so an unreadable or corrupt file is removed and counted), but an
`AttributeError` (record parses to a non-dict) or `TypeError` (non-numeric
`cached_at`) propagates and aborts the whole sweep. -/
def sweepStep (now : ℚ) (st : FileState) : Except PyErr Bool :=
  match st with
  | .unreadable => .ok true
  | .corrupt => .ok true
  | .parsed j => do
      let ca ← dictGetD j "cached_at" (.num 0)
      let caq ← toNum ca
      .ok (!subLt now caq CACHE_MAX_AGE_SECONDS)

/-- Models `storage.cleanup_old_cache`: iterate over the directory listing,
removing and counting each file whose step says so; an exception the inner
handler does not catch propagates out of the sweep. -/
def cleanup_old_cache (now : ℚ) : Dir → Except PyErr (ℕ × Dir)
  | [] => .ok (0, [])
  | (k, st) :: rest => do
      let del ← sweepStep now st
      let (n, d') ← cleanup_old_cache now rest
      if del then .ok (n + 1, d') else .ok (n, (k, st) :: d')

/-- Models `weather_app.make_api_request`, given the parsed JSON body of
the eventual successful response: the source raises a bare `Exception`
when the body is falsy, and returns it otherwise. -/
def make_api_request (body : Json) : Except PyErr Json :=
  if body.isTruthy then .ok body else .error .exception

/-- Models `weather_app.get_weather_by_coordinates`: cache lookup, on a
truthy hit overlay the optional caller-supplied display name onto the
returned value, on a miss fetch, overlay the display name onto the fetched
data, save, and return. -/
def get_weather_by_coordinates (wf : CacheKey → Bool) (lat lon : ℚ)
    (city_name : Option String) (api_body : Json) (now : ℚ) (d : Dir) :
    Except PyErr (Json × Dir) := do
  let res ← get_cached_data lat lon "weather" now d
  let fetchPath : Dir → Except PyErr (Json × Dir) := fun d1 => do
    let data ← make_api_request api_body
    let data2 ←
      match city_name with
      | some nm => setItem data "_local_name" (.str nm)
      | none => .ok data
    let d2 ← save_cached_data wf lat lon "weather" data2 now d1
    .ok (data2, d2)
  match res.1 with
  | some cached =>
      if cached.isTruthy then
        match city_name with
        | some nm => do
            let withName ← setItem cached "_local_name" (.str nm)
            .ok (withName, res.2)
        | none => .ok (cached, res.2)
      else fetchPath res.2
  | none => fetchPath res.2

/-- The unwrap `weather_app.get_air_pollution` applies to a payload:
`payload["list"][0].get("components", {})`. -/
def unwrapComponents (j : Json) : Except PyErr Json := do
  let l ← subscrStr j "list"
  let e0 ← subscrIdx l 0
  dictGetD e0 "components" (.obj [])

/-- Models `weather_app.get_air_pollution`: on a truthy cache hit unwrap
the cached payload; on a miss fetch, save the full response, then unwrap
it for the return value. -/
def get_air_pollution (wf : CacheKey → Bool) (lat lon : ℚ) (api_body : Json)
    (now : ℚ) (d : Dir) : Except PyErr (Json × Dir) := do
  let res ← get_cached_data lat lon "air_pollution" now d
  let fetchPath : Dir → Except PyErr (Json × Dir) := fun d1 => do
    let data ← make_api_request api_body
    let d2 ← save_cached_data wf lat lon "air_pollution" data now d1
    let comps ← unwrapComponents data
    .ok (comps, d2)
  match res.1 with
  | some cached =>
      if cached.isTruthy then do
        let comps ← unwrapComponents cached
        .ok (comps, res.2)
      else fetchPath res.2
  | none => fetchPath res.2

/-- The payload stored at a key, when a parsed record with a `data` field
is present (statement helper). -/
def storedData (d : Dir) (k : CacheKey) : Option Json :=
  match lookupFile d k with
  | some (.parsed (.obj fs)) => lookupField fs "data"
  | _ => none

/-- File states on which the sweep's age computation does not raise: the
content is unreadable, corrupt, or parses to a dict whose `cached_at` is
absent or numeric (statement helper). -/
def recordWF : FileState → Bool
  | .parsed (.obj fs) =>
      match lookupField fs "cached_at" with
      | none => true
      | some (.num _) => true
      | some (.bool _) => true
      | some _ => false
  | .parsed _ => false
  | _ => true

/-- Which records one sweep removes and counts, on `recordWF` states: the
unreadable, the corrupt, and the expired (age at least the TTL, with a
missing `cached_at` defaulting to 0) (statement helper). -/
def sweepDeletes (now : ℚ) : FileState → Bool
  | .unreadable => true
  | .corrupt => true
  | .parsed j =>
      match j with
      | .obj fs =>
          match lookupField fs "cached_at" with
          | none => !subLt now 0 CACHE_MAX_AGE_SECONDS
          | some (.num c) => !subLt now c CACHE_MAX_AGE_SECONDS
          | some (.bool b) =>
              !subLt now (if b then 1 else 0) CACHE_MAX_AGE_SECONDS
          | some _ => false
      | _ => false

/-- A write-fault environment in which no write fails. -/
def wfNone : CacheKey → Bool := fun _ => false

/-- A write-fault environment in which every write fails. -/
def wfAll : CacheKey → Bool := fun _ => true

/-! ### Shared lemmas -/

theorem subLt_iff (a b c : ℚ) : subLt a b c = true ↔ a - b < c := by
  have ha : (0:ℚ) < (a.den : ℚ) := by exact_mod_cast a.den_pos
  have hb : (0:ℚ) < (b.den : ℚ) := by exact_mod_cast b.den_pos
  have hc : (0:ℚ) < (c.den : ℚ) := by exact_mod_cast c.den_pos
  rw [subLt, decide_eq_true_iff]
  have h2 : a - b < c ↔
      ((a.num * (b.den:ℤ) - (a.den:ℤ) * b.num : ℤ) : ℚ) * ((c.den:ℤ) : ℚ) <
      ((c.num : ℤ) : ℚ) * (((a.den:ℤ) : ℚ) * ((b.den:ℤ) : ℚ)) := by
    conv_lhs => rw [← Rat.num_div_den a, ← Rat.num_div_den b, ← Rat.num_div_den c]
    rw [div_sub_div _ _ ha.ne' hb.ne', div_lt_div_iff₀ (mul_pos ha hb) hc]
    push_cast
    ring_nf
  rw [h2]
  constructor
  · intro h
    exact_mod_cast h
  · intro h
    exact_mod_cast h

theorem subLt_false_iff (a b c : ℚ) : subLt a b c = false ↔ c ≤ a - b := by
  rw [← Bool.not_eq_true, subLt_iff, not_lt]

theorem pyBind_ok {α β : Type} (a : α) (f : α → Except PyErr β) :
    (Except.ok a : Except PyErr α) >>= f = f a := rfl

theorem pyBind_err {α β : Type} (e : PyErr) (f : α → Except PyErr β) :
    (Except.error e : Except PyErr α) >>= f = Except.error e := rfl

theorem lookupFile_removeFile_self (d : Dir) (k : CacheKey) :
    lookupFile (removeFile d k) k = none := by
  induction d with
  | nil => rfl
  | cons e rest ih =>
      obtain ⟨k', st⟩ := e
      by_cases h : k' = k
      · simp [removeFile, h, ih]
      · simp [removeFile, lookupFile, h, ih]

theorem lookupFile_removeFile_ne (d : Dir) (k k' : CacheKey) (h : k' ≠ k) :
    lookupFile (removeFile d k) k' = lookupFile d k' := by
  induction d with
  | nil => rfl
  | cons e rest ih =>
      obtain ⟨k'', st⟩ := e
      by_cases h2 : k'' = k
      · subst h2
        have hne : k'' ≠ k' := fun hk => h (hk.symm)
        simp [removeFile, lookupFile, hne, ih]
      · by_cases h3 : k'' = k'
        · simp [removeFile, lookupFile, h2, h3, h]
        · simp [removeFile, lookupFile, h2, h3, ih]

theorem rndHalfEvenFrac_exact (n den : ℤ) (hden : 0 < den) :
    rndHalfEvenFrac (n * den) den = n := by
  rw [rndHalfEvenFrac]
  have hfd : (n * den).fdiv den = n := Int.mul_fdiv_cancel n hden.ne'
  simp only [hfd]
  have : 2 * (n * den - n * den) = 0 := by ring
  rw [this]
  simp [hden]

theorem num_mul_hundred (h : ℤ) : (mkRat h 100).num * 100 = h * ((mkRat h 100).den : ℤ) := by
  set q := mkRat h 100 with hq
  have hden : ((q.den : ℤ) : ℚ) ≠ 0 := by
    have := q.den_pos
    positivity
  have hval : (q.num : ℚ) / (q.den : ℚ) = (h : ℚ) / 100 := by
    rw [Rat.num_div_den, hq, Rat.mkRat_eq_div]
    norm_num
  have hcross : (q.num : ℚ) * 100 = (h : ℚ) * (q.den : ℚ) := by
    field_simp at hval
    linarith [hval]
  exact_mod_cast hcross

theorem hundredths_round2 (x : ℚ) : hundredths (round2 x) = hundredths x := by
  rw [round2]
  set h := hundredths x with hh
  rw [hundredths]
  have hden : (0:ℤ) < ((mkRat h 100).den : ℤ) := by exact_mod_cast (mkRat h 100).den_pos
  rw [num_mul_hundred h]
  exact rndHalfEvenFrac_exact h _ hden

theorem round2_eq_of_hundredths_eq (x y : ℚ) (h : hundredths x = hundredths y) :
    round2 x = round2 y := by
  rw [round2, round2, h]

theorem sweepStep_wf (now : ℚ) (st : FileState) (h : recordWF st = true) :
    sweepStep now st = .ok (sweepDeletes now st) := by
  cases st with
  | unreadable => rfl
  | corrupt => rfl
  | parsed j =>
      cases j with
      | obj fs =>
          cases hca : lookupField fs "cached_at" with
          | none =>
              simp only [sweepStep, sweepDeletes, dictGetD, hca, toNum,
                Option.getD, pyBind_ok]
          | some v =>
              cases v with
              | num c =>
                  simp only [sweepStep, sweepDeletes, dictGetD, hca, toNum,
                    Option.getD, pyBind_ok]
              | bool b =>
                  simp only [sweepStep, sweepDeletes, dictGetD, hca, toNum,
                    Option.getD, pyBind_ok]
              | null => simp [recordWF, hca] at h
              | str s => simp [recordWF, hca] at h
              | arr xs => simp [recordWF, hca] at h
              | obj fs2 => simp [recordWF, hca] at h
      | null => simp [recordWF] at h
      | bool b => simp [recordWF] at h
      | num q => simp [recordWF] at h
      | str s => simp [recordWF] at h
      | arr xs => simp [recordWF] at h

theorem cleanup_characterization (now : ℚ) (d : Dir)
    (h : ∀ e ∈ d, recordWF e.2 = true) :
    cleanup_old_cache now d =
      .ok ((d.filter fun e => sweepDeletes now e.2).length,
           d.filter fun e => !sweepDeletes now e.2) := by
  induction d with
  | nil => rfl
  | cons e rest ih =>
      obtain ⟨k, st⟩ := e
      have hst : recordWF st = true := h (k, st) (List.mem_cons_self _ _)
      have hrest : ∀ e ∈ rest, recordWF e.2 = true :=
        fun e he => h e (List.mem_cons_of_mem _ he)
      cases hdel : sweepDeletes now st with
      | true =>
          simp [cleanup_old_cache, sweepStep_wf now st hst, hdel, ih hrest,
                List.filter, pyBind_ok]
      | false =>
          simp [cleanup_old_cache, sweepStep_wf now st hst, hdel, ih hrest,
                List.filter, pyBind_ok]


/-- Key inequality from endpoint inequality. -/
theorem cache_key_ne_of_endpoint_ne (lat1 lon1 lat2 lon2 : ℚ) (e1 e2 : String)
    (h : e1 ≠ e2) : _get_cache_key lat1 lon1 e1 ≠ _get_cache_key lat2 lon2 e2 :=
  fun heq => h (congrArg CacheKey.endpoint heq)

/-- A geocoding endpoint tag never equals one of the three coordinate-keyed
endpoint tags (their first characters differ). -/
theorem geocoding_tag_ne (city e : String) (he : e ∈ cachedEndpoints) :
    "geocoding_" ++ city ≠ e := by
  obtain ⟨cs⟩ := city
  intro heq
  have hg : (("geocoding_" : String) ++ String.mk cs).data.head? = some 'g' := rfl
  rw [heq] at hg
  simp only [cachedEndpoints, List.mem_cons, List.not_mem_nil, or_false] at he
  rcases he with rfl | rfl | rfl
  · exact absurd hg (by decide)
  · exact absurd hg (by decide)
  · exact absurd hg (by decide)

/-! ### The claims -/

/-- C1: for every two raw coordinate pairs whose latitude components round
to the same 2-decimal value and whose longitude components round to the
same 2-decimal value, and for every endpoint string, the cache key built by
`get`/`put` is identical — so they address the same stored record; in
particular (55.7504, 37.6174) and (55.754, 37.6204) address one record per
endpoint. -/
theorem C1_same_rounded_coordinates_same_cache_key :
    (∀ (lat1 lon1 lat2 lon2 : ℚ) (endpoint : String),
        round2 lat1 = round2 lat2 → round2 lon1 = round2 lon2 →
        _get_cache_key lat1 lon1 endpoint = _get_cache_key lat2 lon2 endpoint) ∧
    (∀ (d : Dir) (lat1 lon1 lat2 lon2 : ℚ) (endpoint : String),
        round2 lat1 = round2 lat2 → round2 lon1 = round2 lon2 →
        lookupFile d (_get_cache_key lat1 lon1 endpoint) =
          lookupFile d (_get_cache_key lat2 lon2 endpoint)) ∧
    (∀ endpoint : String,
        _get_cache_key (mkRat 557504 10000) (mkRat 376174 10000) endpoint =
          _get_cache_key (mkRat 55754 1000) (mkRat 376204 10000) endpoint) := by
  have key_congr : ∀ (lat1 lon1 lat2 lon2 : ℚ) (endpoint : String),
      round2 lat1 = round2 lat2 → round2 lon1 = round2 lon2 →
      _get_cache_key lat1 lon1 endpoint = _get_cache_key lat2 lon2 endpoint := by
    intro lat1 lon1 lat2 lon2 endpoint hlat hlon
    simp only [_get_cache_key, normalize_coordinates]
    rw [hlat, hlon]
  refine ⟨key_congr, ?_, ?_⟩
  · intro d lat1 lon1 lat2 lon2 endpoint hlat hlon
    rw [key_congr lat1 lon1 lat2 lon2 endpoint hlat hlon]
  · intro endpoint
    exact key_congr _ _ _ _ endpoint (by decide) (by decide)

theorem C1_same_rounded_coordinates_same_cache_key_witness :
    round2 (mkRat 557504 10000) = round2 (mkRat 55754 1000) ∧
    round2 (mkRat 376174 10000) = round2 (mkRat 376204 10000) ∧
    _get_cache_key (mkRat 557504 10000) (mkRat 376174 10000) "weather" =
      _get_cache_key (mkRat 55754 1000) (mkRat 376204 10000) "weather" :=
  ⟨by decide, by decide,
   C1_same_rounded_coordinates_same_cache_key.1 _ _ _ _ "weather"
     (by decide) (by decide)⟩

/-- C2: for a stored record at the key of (lat, lon, endpoint) with numeric
`cached_at = c` and payload `p`, a `get` at time `now` is a hit returning
`p` when `now - c < 600`, and a miss that deletes the record when
`now - c ≥ 600` (after which a second `get` also misses); the enforced TTL
constant is 600 seconds and is not the 3-hour constant declared in
`weather_app`. -/
theorem C2_ttl_600_enforced :
    ∀ (d : Dir) (lat lon : ℚ) (endpoint : String) (now c : ℚ)
      (fs : List (String × Json)) (p : Json),
      lookupFile d (_get_cache_key lat lon endpoint) =
        some (.parsed (.obj fs)) →
      lookupField fs "cached_at" = some (.num c) →
      lookupField fs "data" = some p →
      (now - c < 600 →
        get_cached_data lat lon endpoint now d = .ok (some p, d)) ∧
      (600 ≤ now - c →
        get_cached_data lat lon endpoint now d =
          .ok (none, removeFile d (_get_cache_key lat lon endpoint)) ∧
        lookupFile (removeFile d (_get_cache_key lat lon endpoint))
          (_get_cache_key lat lon endpoint) = none ∧
        get_cached_data lat lon endpoint now
            (removeFile d (_get_cache_key lat lon endpoint)) =
          .ok (none, removeFile d (_get_cache_key lat lon endpoint))) ∧
      CACHE_MAX_AGE_SECONDS = 600 ∧
      CACHE_MAX_AGE_HOURS * 3600 ≠ CACHE_MAX_AGE_SECONDS := by
  intro d lat lon endpoint now c fs p hlook hca hdata
  refine ⟨?_, ?_, rfl, by rw [CACHE_MAX_AGE_HOURS, CACHE_MAX_AGE_SECONDS]; norm_num⟩
  · intro hfresh
    have hslt : subLt now c CACHE_MAX_AGE_SECONDS = true :=
      (subLt_iff now c CACHE_MAX_AGE_SECONDS).mpr hfresh
    simp only [get_cached_data, hlook, dictGetD, hca, Option.getD, toNum,
      pyBind_ok, hslt, if_true, dictGet, hdata]
  · intro hstale
    have hslt : subLt now c CACHE_MAX_AGE_SECONDS = false :=
      (subLt_false_iff now c CACHE_MAX_AGE_SECONDS).mpr hstale
    refine ⟨?_, lookupFile_removeFile_self d _, ?_⟩
    · simp only [get_cached_data, hlook, dictGetD, hca, Option.getD, toNum,
        pyBind_ok, hslt, Bool.false_eq_true, if_false]
    · simp only [get_cached_data, lookupFile_removeFile_self d _]

theorem C2_ttl_600_enforced_witness :
    mkRat 1000 1 - mkRat 401 1 < 600 ∧
    get_cached_data (mkRat 1 1) (mkRat 2 1) "weather" (mkRat 1000 1)
        [(_get_cache_key (mkRat 1 1) (mkRat 2 1) "weather",
          .parsed (.obj [("cached_at", .num (mkRat 401 1)), ("data", .str "w")]))] =
      .ok (some (.str "w"),
        [(_get_cache_key (mkRat 1 1) (mkRat 2 1) "weather",
          .parsed (.obj [("cached_at", .num (mkRat 401 1)), ("data", .str "w")]))]) :=
  have harith : mkRat 1000 1 - mkRat 401 1 < (600:ℚ) := by
    rw [Rat.mkRat_one, Rat.mkRat_one]
    norm_num
  ⟨harith,
   (C2_ttl_600_enforced
      [(_get_cache_key (mkRat 1 1) (mkRat 2 1) "weather",
        .parsed (.obj [("cached_at", .num (mkRat 401 1)), ("data", .str "w")]))]
      (mkRat 1 1) (mkRat 2 1) "weather" (mkRat 1000 1) (mkRat 401 1)
      [("cached_at", .num (mkRat 401 1)), ("data", .str "w")] (.str "w")
      rfl rfl rfl).1 harith⟩

/-- C3: evicting a user's old location removes exactly the records for the
three endpoints weather, forecast and air_pollution at the old normalized
coordinates; every other record — any key with a different endpoint or
different grid cell, in particular every geocoding entry — is unchanged. -/
theorem C3_eviction_is_precise :
    ∀ (d : Dir) (old_lat old_lon : ℚ),
      (∀ endpoint ∈ cachedEndpoints,
        lookupFile (clear_user_cache old_lat old_lon d)
          (_get_cache_key old_lat old_lon endpoint) = none) ∧
      (∀ k : CacheKey,
        (∀ endpoint ∈ cachedEndpoints,
          k ≠ _get_cache_key old_lat old_lon endpoint) →
        lookupFile (clear_user_cache old_lat old_lon d) k = lookupFile d k) ∧
      (∀ (glat glon : ℚ) (city : String),
        lookupFile (clear_user_cache old_lat old_lon d)
          (_get_cache_key glat glon ("geocoding_" ++ city)) =
        lookupFile d (_get_cache_key glat glon ("geocoding_" ++ city))) ∧
      (∀ (lat lon : ℚ) (endpoint : String),
        normalize_coordinates lat lon ≠ normalize_coordinates old_lat old_lon →
        lookupFile (clear_user_cache old_lat old_lon d)
          (_get_cache_key lat lon endpoint) =
        lookupFile d (_get_cache_key lat lon endpoint)) := by
  intro d old_lat old_lon
  have hclear : clear_user_cache old_lat old_lon d =
      removeFile (removeFile (removeFile d
        (_get_cache_key old_lat old_lon "weather"))
        (_get_cache_key old_lat old_lon "forecast"))
        (_get_cache_key old_lat old_lon "air_pollution") := rfl
  have hwf : _get_cache_key old_lat old_lon "weather" ≠
      _get_cache_key old_lat old_lon "forecast" :=
    cache_key_ne_of_endpoint_ne _ _ _ _ _ _ (by decide)
  have hwa : _get_cache_key old_lat old_lon "weather" ≠
      _get_cache_key old_lat old_lon "air_pollution" :=
    cache_key_ne_of_endpoint_ne _ _ _ _ _ _ (by decide)
  have hfa : _get_cache_key old_lat old_lon "forecast" ≠
      _get_cache_key old_lat old_lon "air_pollution" :=
    cache_key_ne_of_endpoint_ne _ _ _ _ _ _ (by decide)
  have frame : ∀ k : CacheKey,
      (∀ endpoint ∈ cachedEndpoints,
        k ≠ _get_cache_key old_lat old_lon endpoint) →
      lookupFile (clear_user_cache old_lat old_lon d) k = lookupFile d k := by
    intro k hk
    rw [hclear,
      lookupFile_removeFile_ne _ _ _ (hk "air_pollution" (by decide)),
      lookupFile_removeFile_ne _ _ _ (hk "forecast" (by decide)),
      lookupFile_removeFile_ne _ _ _ (hk "weather" (by decide))]
  refine ⟨?_, frame, ?_, ?_⟩
  · intro endpoint he
    simp only [cachedEndpoints, List.mem_cons, List.not_mem_nil, or_false] at he
    rcases he with rfl | rfl | rfl
    · rw [hclear, lookupFile_removeFile_ne _ _ _ hwa,
        lookupFile_removeFile_ne _ _ _ hwf, lookupFile_removeFile_self]
    · rw [hclear, lookupFile_removeFile_ne _ _ _ hfa,
        lookupFile_removeFile_self]
    · rw [hclear, lookupFile_removeFile_self]
  · intro glat glon city
    exact frame _ (fun endpoint he =>
      cache_key_ne_of_endpoint_ne _ _ _ _ _ _ (geocoding_tag_ne city endpoint he))
  · intro lat lon endpoint hdiff
    refine frame _ (fun e he heq => hdiff ?_)
    have hlat2 : hundredths (round2 lat) = hundredths (round2 old_lat) :=
      congrArg CacheKey.latHundredths heq
    have hlon2 : hundredths (round2 lon) = hundredths (round2 old_lon) :=
      congrArg CacheKey.lonHundredths heq
    rw [hundredths_round2, hundredths_round2] at hlat2 hlon2
    simp only [normalize_coordinates, Prod.mk.injEq]
    exact ⟨round2_eq_of_hundredths_eq _ _ hlat2,
      round2_eq_of_hundredths_eq _ _ hlon2⟩

theorem C3_eviction_is_precise_witness :
    lookupFile
      (clear_user_cache (mkRat 1 1) (mkRat 2 1)
        [(_get_cache_key (mkRat 1 1) (mkRat 2 1) "weather",
            FileState.parsed (Json.str "old")),
         (_get_cache_key (mkRat 0 1) (mkRat 0 1) ("geocoding_" ++ "moscow"),
            FileState.parsed (Json.str "geo"))])
      (_get_cache_key (mkRat 1 1) (mkRat 2 1) "weather") = none ∧
    lookupFile
      (clear_user_cache (mkRat 1 1) (mkRat 2 1)
        [(_get_cache_key (mkRat 1 1) (mkRat 2 1) "weather",
            FileState.parsed (Json.str "old")),
         (_get_cache_key (mkRat 0 1) (mkRat 0 1) ("geocoding_" ++ "moscow"),
            FileState.parsed (Json.str "geo"))])
      (_get_cache_key (mkRat 0 1) (mkRat 0 1) ("geocoding_" ++ "moscow")) =
    lookupFile
      [(_get_cache_key (mkRat 1 1) (mkRat 2 1) "weather",
          FileState.parsed (Json.str "old")),
       (_get_cache_key (mkRat 0 1) (mkRat 0 1) ("geocoding_" ++ "moscow"),
          FileState.parsed (Json.str "geo"))]
      (_get_cache_key (mkRat 0 1) (mkRat 0 1) ("geocoding_" ++ "moscow")) :=
  ⟨(C3_eviction_is_precise _ (mkRat 1 1) (mkRat 2 1)).1 "weather" (by decide),
   (C3_eviction_is_precise _ (mkRat 1 1) (mkRat 2 1)).2.2.1 (mkRat 0 1)
     (mkRat 0 1) "moscow"⟩

theorem lookupFile_writeFile_self (d : Dir) (k : CacheKey) (st : FileState) :
    lookupFile (writeFile d k st) k = some st := by
  simp [writeFile, lookupFile]

theorem storedData_writeFile_record (d : Dir) (lat lon now : ℚ)
    (endpoint : String) (data : Json) :
    storedData
      (writeFile d (_get_cache_key lat lon endpoint)
        (.parsed (cacheRecord lat lon endpoint now data)))
      (_get_cache_key lat lon endpoint) = some data := by
  simp [storedData, lookupFile_writeFile_self, cacheRecord, lookupField]

/-- C10: a stored record that parses as JSON but lacks the `cached_at`
field gets age `now - 0`, the full time since the Unix epoch, so once that
exceeds the TTL (always, in real time) the record is treated as expired no
matter when it was written: `get` deletes it and misses, and the sweep
deletes and counts it. -/
theorem C10_missing_cached_at_always_expired :
    ∀ (d : Dir) (lat lon : ℚ) (endpoint : String) (now : ℚ)
      (fs : List (String × Json)),
      lookupFile d (_get_cache_key lat lon endpoint) =
        some (.parsed (.obj fs)) →
      lookupField fs "cached_at" = none →
      600 ≤ now →
      get_cached_data lat lon endpoint now d =
        .ok (none, removeFile d (_get_cache_key lat lon endpoint)) ∧
      sweepStep now (.parsed (.obj fs)) = .ok true ∧
      (∀ (k : CacheKey) (rest : Dir) (n : ℕ) (d' : Dir),
        cleanup_old_cache now rest = .ok (n, d') →
        cleanup_old_cache now ((k, .parsed (.obj fs)) :: rest) =
          .ok (n + 1, d')) := by
  intro d lat lon endpoint now fs hlook hca h600
  have hslt : subLt now 0 CACHE_MAX_AGE_SECONDS = false :=
    (subLt_false_iff now 0 CACHE_MAX_AGE_SECONDS).mpr (by rwa [sub_zero])
  have hstep : sweepStep now (.parsed (.obj fs)) = .ok true := by
    simp only [sweepStep, dictGetD, hca, Option.getD, toNum, pyBind_ok, hslt,
      Bool.not_false]
  refine ⟨?_, hstep, ?_⟩
  · simp only [get_cached_data, hlook, dictGetD, hca, Option.getD, toNum,
      pyBind_ok, hslt, Bool.false_eq_true, if_false]
  · intro k rest n d' hrest
    simp only [cleanup_old_cache, hstep, pyBind_ok, hrest, if_true]

theorem C10_missing_cached_at_always_expired_witness :
    (600:ℚ) ≤ mkRat 1000 1 ∧
    get_cached_data (mkRat 1 1) (mkRat 2 1) "weather" (mkRat 1000 1)
        [(_get_cache_key (mkRat 1 1) (mkRat 2 1) "weather",
          .parsed (.obj [("data", Json.null)]))] = .ok (none, []) ∧
    cleanup_old_cache (mkRat 1000 1)
        [(_get_cache_key (mkRat 1 1) (mkRat 2 1) "weather",
          .parsed (.obj [("data", Json.null)]))] = .ok (1, []) :=
  have h := C10_missing_cached_at_always_expired
    [(_get_cache_key (mkRat 1 1) (mkRat 2 1) "weather",
      .parsed (.obj [("data", Json.null)]))]
    (mkRat 1 1) (mkRat 2 1) "weather" (mkRat 1000 1) [("data", Json.null)]
    rfl rfl (by decide)
  ⟨by decide, h.1, h.2.2 (_get_cache_key (mkRat 1 1) (mkRat 2 1) "weather")
    [] 0 [] rfl⟩

/-- C7 counterexample: a stored record whose file is present but whose
`open` raises an `OSError` other than `FileNotFoundError` (e.g. a
`PermissionError`) makes `get` propagate the error instead of returning a
miss — the `except` clause only catches `FileNotFoundError`,
`json.JSONDecodeError` and `KeyError`. -/
theorem C7_counterexample :
    get_cached_data (mkRat 1 1) (mkRat 2 1) "weather" (mkRat 1000 1)
        [(_get_cache_key (mkRat 1 1) (mkRat 2 1) "weather",
          FileState.unreadable)] = .error .osError ∧
    (Except.error .osError :
        Except PyErr (Option Json × Dir)) ≠
      .ok (none,
        [(_get_cache_key (mkRat 1 1) (mkRat 2 1) "weather",
          FileState.unreadable)]) := by
  exact ⟨rfl, by simp⟩

/-- C7 amended: `get` degrades to a miss when the file is absent
(`FileNotFoundError`) or its content is unparseable (`JSONDecodeError`);
any other read I/O error is not caught and propagates to the caller. -/
theorem C7_amended_get_error_semantics :
    ∀ (d : Dir) (lat lon : ℚ) (endpoint : String) (now : ℚ),
      (lookupFile d (_get_cache_key lat lon endpoint) = none →
        get_cached_data lat lon endpoint now d = .ok (none, d)) ∧
      (lookupFile d (_get_cache_key lat lon endpoint) = some .corrupt →
        get_cached_data lat lon endpoint now d = .ok (none, d)) ∧
      (lookupFile d (_get_cache_key lat lon endpoint) = some .unreadable →
        get_cached_data lat lon endpoint now d = .error .osError) := by
  intro d lat lon endpoint now
  exact ⟨fun h => by simp only [get_cached_data, h],
         fun h => by simp only [get_cached_data, h],
         fun h => by simp only [get_cached_data, h]⟩

theorem C7_amended_get_error_semantics_witness :
    get_cached_data (mkRat 1 1) (mkRat 2 1) "weather" (mkRat 5 1) [] =
      .ok (none, []) ∧
    get_cached_data (mkRat 1 1) (mkRat 2 1) "weather" (mkRat 5 1)
        [(_get_cache_key (mkRat 1 1) (mkRat 2 1) "weather",
          FileState.corrupt)] =
      .ok (none,
        [(_get_cache_key (mkRat 1 1) (mkRat 2 1) "weather",
          FileState.corrupt)]) ∧
    get_cached_data (mkRat 1 1) (mkRat 2 1) "weather" (mkRat 5 1)
        [(_get_cache_key (mkRat 1 1) (mkRat 2 1) "weather",
          FileState.unreadable)] = .error .osError :=
  ⟨(C7_amended_get_error_semantics [] (mkRat 1 1) (mkRat 2 1) "weather"
      (mkRat 5 1)).1 rfl,
   (C7_amended_get_error_semantics
      [(_get_cache_key (mkRat 1 1) (mkRat 2 1) "weather", FileState.corrupt)]
      (mkRat 1 1) (mkRat 2 1) "weather" (mkRat 5 1)).2.1 rfl,
   (C7_amended_get_error_semantics
      [(_get_cache_key (mkRat 1 1) (mkRat 2 1) "weather", FileState.unreadable)]
      (mkRat 1 1) (mkRat 2 1) "weather" (mkRat 5 1)).2.2 rfl⟩

/-- C6 counterexample: with the remote fetch succeeding and the cache
write raising a storage I/O error, the whole weather lookup fails with
that error instead of returning the fetched payload — the source has no
handler around the put. -/
theorem C6_counterexample :
    get_weather_by_coordinates wfAll (mkRat 1 1) (mkRat 2 1) none
        (Json.obj [("main", Json.str "Clouds")]) (mkRat 5 1) [] =
      .error .osError ∧
    (Except.error .osError : Except PyErr (Json × Dir)) ≠
      .ok (Json.obj [("main", Json.str "Clouds")], []) := by
  exact ⟨rfl, by simp⟩

/-- C6 amended: when the remote fetch succeeds but the cache write fails
with a storage I/O error, the error propagates and the weather lookup
fails, even though the payload had already been fetched. -/
theorem C6_amended_put_failure_fails_request :
    ∀ (wf : CacheKey → Bool) (lat lon now : ℚ) (api : Json) (d d1 : Dir),
      get_cached_data lat lon "weather" now d = .ok (none, d1) →
      api.isTruthy = true →
      wf (_get_cache_key lat lon "weather") = true →
      get_weather_by_coordinates wf lat lon none api now d =
        .error .osError := by
  intro wf lat lon now api d d1 hget htruthy hwf
  simp only [get_weather_by_coordinates, hget, pyBind_ok, make_api_request,
    htruthy, if_true, save_cached_data, hwf, pyBind_err]

theorem C6_amended_put_failure_fails_request_witness :
    get_weather_by_coordinates wfAll (mkRat 1 1) (mkRat 2 1) none
        (Json.obj [("a", Json.null)]) (mkRat 5 1) [] = .error .osError :=
  C6_amended_put_failure_fails_request wfAll (mkRat 1 1) (mkRat 2 1)
    (mkRat 5 1) (Json.obj [("a", Json.null)]) [] [] rfl rfl rfl

/-- C9 counterexample: during a `put` over a fresh record, the
intermediate file-system state (destination truncated in place by
`open(path, "w")`) is observable: a concurrent `get` at that moment
returns a miss — neither the old payload nor the new one — so a reader
can observe a half-written record; there is no temporary file and no
atomic rename. -/
theorem C9_counterexample :
    save_cached_data_states (mkRat 1 1) (mkRat 2 1) "weather"
        (Json.str "new") (mkRat 100 1)
        [(_get_cache_key (mkRat 1 1) (mkRat 2 1) "weather",
          .parsed (.obj [("cached_at", .num (mkRat 0 1)),
                         ("data", .str "old")]))] =
      [[(_get_cache_key (mkRat 1 1) (mkRat 2 1) "weather",
         .parsed (.obj [("cached_at", .num (mkRat 0 1)),
                        ("data", .str "old")]))],
       [(_get_cache_key (mkRat 1 1) (mkRat 2 1) "weather",
         FileState.corrupt)],
       [(_get_cache_key (mkRat 1 1) (mkRat 2 1) "weather",
         .parsed (cacheRecord (mkRat 1 1) (mkRat 2 1) "weather" (mkRat 100 1)
           (Json.str "new")))]] ∧
    get_cached_data (mkRat 1 1) (mkRat 2 1) "weather" (mkRat 100 1)
        [(_get_cache_key (mkRat 1 1) (mkRat 2 1) "weather",
          .parsed (.obj [("cached_at", .num (mkRat 0 1)),
                         ("data", .str "old")]))] =
      .ok (some (.str "old"),
        [(_get_cache_key (mkRat 1 1) (mkRat 2 1) "weather",
          .parsed (.obj [("cached_at", .num (mkRat 0 1)),
                         ("data", .str "old")]))]) ∧
    get_cached_data (mkRat 1 1) (mkRat 2 1) "weather" (mkRat 100 1)
        [(_get_cache_key (mkRat 1 1) (mkRat 2 1) "weather",
          FileState.corrupt)] =
      .ok (none,
        [(_get_cache_key (mkRat 1 1) (mkRat 2 1) "weather",
          FileState.corrupt)]) ∧
    get_cached_data (mkRat 1 1) (mkRat 2 1) "weather" (mkRat 100 1)
        [(_get_cache_key (mkRat 1 1) (mkRat 2 1) "weather",
          .parsed (cacheRecord (mkRat 1 1) (mkRat 2 1) "weather" (mkRat 100 1)
            (Json.str "new")))] =
      .ok (some (.str "new"),
        [(_get_cache_key (mkRat 1 1) (mkRat 2 1) "weather",
          .parsed (cacheRecord (mkRat 1 1) (mkRat 2 1) "weather" (mkRat 100 1)
            (Json.str "new")))]) ∧
    (none : Option Json) ≠ some (.str "old") ∧
    (none : Option Json) ≠ some (.str "new") := by
  exact ⟨rfl, rfl, rfl, rfl, by simp, by simp⟩

/-- C9 amended: `put` opens the final path directly and truncates it in
place before writing, so the file system passes through an intermediate
state holding an unparseable record at the key; a concurrent reader at
that moment finds the record corrupt and reads a miss.  There is no
temporary location and no atomic rename. -/
theorem C9_amended_put_truncates_in_place :
    ∀ (lat lon : ℚ) (endpoint : String) (data : Json) (now : ℚ) (d : Dir),
      save_cached_data_states lat lon endpoint data now d =
        [d, writeFile d (_get_cache_key lat lon endpoint) .corrupt,
         writeFile d (_get_cache_key lat lon endpoint)
           (.parsed (cacheRecord lat lon endpoint now data))] ∧
      lookupFile (writeFile d (_get_cache_key lat lon endpoint) .corrupt)
        (_get_cache_key lat lon endpoint) = some .corrupt ∧
      get_cached_data lat lon endpoint now
          (writeFile d (_get_cache_key lat lon endpoint) .corrupt) =
        .ok (none, writeFile d (_get_cache_key lat lon endpoint) .corrupt) := by
  intro lat lon endpoint data now d
  refine ⟨rfl, lookupFile_writeFile_self _ _ _, ?_⟩
  simp only [get_cached_data, lookupFile_writeFile_self]

/-- C8 counterexample: a record that parses to a JSON value that is not an
object (here a JSON array) raises an `AttributeError` the sweep handler
does not catch, aborting the whole sweep; the stale, deletable record
after it is neither examined, deleted nor counted, and no count is
returned. -/
theorem C8_counterexample :
    cleanup_old_cache (mkRat 1000 1)
        [(_get_cache_key (mkRat 1 1) (mkRat 2 1) "weather",
          FileState.parsed (Json.arr [Json.num (mkRat 1 1)])),
         (_get_cache_key (mkRat 3 1) (mkRat 4 1) "weather",
          FileState.parsed (Json.obj [("cached_at", Json.num (mkRat 0 1)),
                                      ("data", Json.null)]))] =
      .error .attributeError ∧
    sweepDeletes (mkRat 1000 1)
        (FileState.parsed (Json.obj [("cached_at", Json.num (mkRat 0 1)),
                                     ("data", Json.null)])) = true := by
  exact ⟨rfl, rfl⟩

/-- C8 amended: over directories whose parsed records are JSON objects
with a numeric or missing `cached_at`, one sweep examines every record,
deletes and counts exactly those that are unreadable, unparseable or
expired (age at least 600 seconds, a missing `cached_at` counting as 0),
and a per-record read or parse failure never aborts the remaining
records; a record parsing to a non-object value (or carrying a
non-numeric `cached_at`) instead raises an uncaught error that aborts the
sweep. -/
theorem C8_amended_sweep_characterization :
    ∀ (now : ℚ) (d : Dir), (∀ e ∈ d, recordWF e.2 = true) →
      cleanup_old_cache now d =
        .ok ((d.filter fun e => sweepDeletes now e.2).length,
             d.filter fun e => !sweepDeletes now e.2) :=
  fun now d h => cleanup_characterization now d h

theorem C8_amended_sweep_characterization_witness :
    cleanup_old_cache (mkRat 1000 1)
        [(_get_cache_key (mkRat 1 1) (mkRat 2 1) "weather",
          FileState.corrupt),
         (_get_cache_key (mkRat 3 1) (mkRat 4 1) "weather",
          FileState.parsed (Json.obj [("cached_at", Json.num (mkRat 900 1)),
                                      ("data", Json.null)])),
         (_get_cache_key (mkRat 5 1) (mkRat 6 1) "weather",
          FileState.parsed (Json.obj [("cached_at", Json.num (mkRat 100 1)),
                                      ("data", Json.null)]))] =
      .ok (2,
        [(_get_cache_key (mkRat 3 1) (mkRat 4 1) "weather",
          FileState.parsed (Json.obj [("cached_at", Json.num (mkRat 900 1)),
                                      ("data", Json.null)]))]) :=
  (C8_amended_sweep_characterization (mkRat 1000 1)
    [(_get_cache_key (mkRat 1 1) (mkRat 2 1) "weather",
      FileState.corrupt),
     (_get_cache_key (mkRat 3 1) (mkRat 4 1) "weather",
      FileState.parsed (Json.obj [("cached_at", Json.num (mkRat 900 1)),
                                  ("data", Json.null)])),
     (_get_cache_key (mkRat 5 1) (mkRat 6 1) "weather",
      FileState.parsed (Json.obj [("cached_at", Json.num (mkRat 100 1)),
                                  ("data", Json.null)]))]
    (by decide)).trans rfl

/-- C4 counterexample: a weather lookup by coordinates with a
caller-supplied display name that misses the cache persists the
display-name overlay: the record written by the put carries the
`_local_name` field, so the cached payload is not the pristine remote
response. -/
theorem C4_counterexample :
    (get_weather_by_coordinates wfNone (mkRat 1 1) (mkRat 2 1)
        (some "Moscow") (Json.obj [("main", Json.str "Clouds")])
        (mkRat 5 1) []).map
      (fun r => storedData r.2 (_get_cache_key (mkRat 1 1) (mkRat 2 1) "weather")) =
      .ok (some (Json.obj [("main", Json.str "Clouds"),
                           ("_local_name", Json.str "Moscow")])) ∧
    some (Json.obj [("main", Json.str "Clouds"),
                    ("_local_name", Json.str "Moscow")]) ≠
      some (Json.obj [("main", Json.str "Clouds")]) := by
  exact ⟨rfl, by simp⟩

/-- C4 amended: on a truthy cache hit the display-name overlay is applied
only to the returned value and the store is left untouched; on a miss the
overlay is applied to the fetched data before the put, so the cached
record contains the overlay rather than the pristine response. -/
theorem C4_amended_overlay_persisted_on_miss :
    ∀ (wf : CacheKey → Bool) (lat lon now : ℚ) (nm : String) (api : Json)
      (d d1 : Dir),
      (∀ cfs : List (String × Json),
        get_cached_data lat lon "weather" now d = .ok (some (.obj cfs), d1) →
        Json.isTruthy (.obj cfs) = true →
        get_weather_by_coordinates wf lat lon (some nm) api now d =
          .ok (.obj (setField cfs "_local_name" (.str nm)), d1)) ∧
      (∀ afs : List (String × Json),
        get_cached_data lat lon "weather" now d = .ok (none, d1) →
        api = .obj afs →
        Json.isTruthy (.obj afs) = true →
        wf (_get_cache_key lat lon "weather") = false →
        get_weather_by_coordinates wf lat lon (some nm) api now d =
          .ok (.obj (setField afs "_local_name" (.str nm)),
            writeFile d1 (_get_cache_key lat lon "weather")
              (.parsed (cacheRecord lat lon "weather" now
                (.obj (setField afs "_local_name" (.str nm)))))) ∧
        storedData
            (writeFile d1 (_get_cache_key lat lon "weather")
              (.parsed (cacheRecord lat lon "weather" now
                (.obj (setField afs "_local_name" (.str nm))))))
            (_get_cache_key lat lon "weather") =
          some (.obj (setField afs "_local_name" (.str nm)))) := by
  intro wf lat lon now nm api d d1
  constructor
  · intro cfs hget htruthy
    simp only [get_weather_by_coordinates, hget, pyBind_ok, htruthy, if_true,
      setItem]
  · intro afs hget hapi htruthy hwf
    subst hapi
    refine ⟨?_, storedData_writeFile_record _ _ _ _ _ _⟩
    simp only [get_weather_by_coordinates, hget, pyBind_ok, make_api_request,
      htruthy, if_true, setItem, save_cached_data, hwf, Bool.false_eq_true,
      if_false, writeFile]

theorem C4_amended_overlay_persisted_on_miss_witness :
    get_weather_by_coordinates wfNone (mkRat 1 1) (mkRat 2 1) (some "Moscow")
        (Json.obj [("main", Json.str "Clouds")]) (mkRat 5 1) [] =
      .ok (Json.obj [("main", Json.str "Clouds"),
                     ("_local_name", Json.str "Moscow")],
        writeFile [] (_get_cache_key (mkRat 1 1) (mkRat 2 1) "weather")
          (.parsed (cacheRecord (mkRat 1 1) (mkRat 2 1) "weather" (mkRat 5 1)
            (Json.obj [("main", Json.str "Clouds"),
                       ("_local_name", Json.str "Moscow")])))) ∧
    storedData
        (writeFile [] (_get_cache_key (mkRat 1 1) (mkRat 2 1) "weather")
          (.parsed (cacheRecord (mkRat 1 1) (mkRat 2 1) "weather" (mkRat 5 1)
            (Json.obj [("main", Json.str "Clouds"),
                       ("_local_name", Json.str "Moscow")]))))
        (_get_cache_key (mkRat 1 1) (mkRat 2 1) "weather") =
      some (Json.obj [("main", Json.str "Clouds"),
                      ("_local_name", Json.str "Moscow")]) :=
  (C4_amended_overlay_persisted_on_miss wfNone (mkRat 1 1) (mkRat 2 1)
    (mkRat 5 1) "Moscow" (Json.obj [("main", Json.str "Clouds")]) [] []).2
    [("main", Json.str "Clouds")] rfl rfl rfl rfl

/-- C5 counterexample: an air-pollution miss stores the full remote
response envelope in the cache, not the unwrapped pollutant-component
mapping; the component mapping is only what the function returns. -/
theorem C5_counterexample :
    (get_air_pollution wfNone (mkRat 1 1) (mkRat 2 1)
        (Json.obj [("coord", Json.null),
                   ("list", Json.arr [Json.obj [("components",
                      Json.obj [("co", Json.num (mkRat 1 1))])]])])
        (mkRat 5 1) []).map
      (fun r => storedData r.2
        (_get_cache_key (mkRat 1 1) (mkRat 2 1) "air_pollution")) =
      .ok (some (Json.obj [("coord", Json.null),
                   ("list", Json.arr [Json.obj [("components",
                      Json.obj [("co", Json.num (mkRat 1 1))])]])])) ∧
    (get_air_pollution wfNone (mkRat 1 1) (mkRat 2 1)
        (Json.obj [("coord", Json.null),
                   ("list", Json.arr [Json.obj [("components",
                      Json.obj [("co", Json.num (mkRat 1 1))])]])])
        (mkRat 5 1) []).map (fun r => r.1) =
      .ok (Json.obj [("co", Json.num (mkRat 1 1))]) ∧
    Json.obj [("coord", Json.null),
              ("list", Json.arr [Json.obj [("components",
                 Json.obj [("co", Json.num (mkRat 1 1))])]])] ≠
      Json.obj [("co", Json.num (mkRat 1 1))] := by
  exact ⟨rfl, rfl, by simp⟩

/-- C5 amended: the payload stored under the air_pollution endpoint is the
full remote response envelope; `get_air_pollution` returns the unwrapped
component mapping on both the miss-then-fetch path and the hit path
(unwrapping the stored envelope again on every hit). -/
theorem C5_amended_envelope_stored_components_returned :
    ∀ (wf : CacheKey → Bool) (lat lon now : ℚ) (api : Json) (d d1 : Dir)
      (afs efs : List (String × Json)) (tail : List Json),
      (get_cached_data lat lon "air_pollution" now d = .ok (none, d1) →
        api = .obj afs →
        Json.isTruthy (.obj afs) = true →
        lookupField afs "list" = some (.arr (Json.obj efs :: tail)) →
        wf (_get_cache_key lat lon "air_pollution") = false →
        get_air_pollution wf lat lon api now d =
          .ok ((lookupField efs "components").getD (.obj []),
            writeFile d1 (_get_cache_key lat lon "air_pollution")
              (.parsed (cacheRecord lat lon "air_pollution" now (.obj afs)))) ∧
        storedData
            (writeFile d1 (_get_cache_key lat lon "air_pollution")
              (.parsed (cacheRecord lat lon "air_pollution" now (.obj afs))))
            (_get_cache_key lat lon "air_pollution") =
          some (.obj afs)) ∧
      (get_cached_data lat lon "air_pollution" now d =
          .ok (some (.obj afs), d1) →
        Json.isTruthy (.obj afs) = true →
        lookupField afs "list" = some (.arr (Json.obj efs :: tail)) →
        get_air_pollution wf lat lon api now d =
          .ok ((lookupField efs "components").getD (.obj []), d1)) := by
  intro wf lat lon now api d d1 afs efs tail
  constructor
  · intro hget hapi htruthy hlist hwf
    subst hapi
    refine ⟨?_, storedData_writeFile_record _ _ _ _ _ _⟩
    simp only [get_air_pollution, hget, pyBind_ok, make_api_request, htruthy,
      if_true, save_cached_data, hwf, Bool.false_eq_true, if_false,
      unwrapComponents, subscrStr, hlist, subscrIdx, List.get?_cons_zero,
      dictGetD]
  · intro hget htruthy hlist
    simp only [get_air_pollution, hget, pyBind_ok, htruthy, if_true,
      unwrapComponents, subscrStr, hlist, subscrIdx, List.get?_cons_zero,
      dictGetD]

theorem C5_amended_envelope_stored_components_returned_witness :
    get_air_pollution wfNone (mkRat 1 1) (mkRat 2 1)
        (Json.obj [("list", Json.arr [Json.obj [("components",
           Json.obj [("co", Json.num (mkRat 7 1))])]])])
        (mkRat 5 1) [] =
      .ok (Json.obj [("co", Json.num (mkRat 7 1))],
        writeFile [] (_get_cache_key (mkRat 1 1) (mkRat 2 1) "air_pollution")
          (.parsed (cacheRecord (mkRat 1 1) (mkRat 2 1) "air_pollution"
            (mkRat 5 1)
            (Json.obj [("list", Json.arr [Json.obj [("components",
               Json.obj [("co", Json.num (mkRat 7 1))])]])])))) :=
  ((C5_amended_envelope_stored_components_returned wfNone (mkRat 1 1)
      (mkRat 2 1) (mkRat 5 1)
      (Json.obj [("list", Json.arr [Json.obj [("components",
         Json.obj [("co", Json.num (mkRat 7 1))])]])])
      [] []
      [("list", Json.arr [Json.obj [("components",
         Json.obj [("co", Json.num (mkRat 7 1))])]])]
      [("components", Json.obj [("co", Json.num (mkRat 7 1))])]
      []).1 rfl rfl rfl rfl rfl).1.trans rfl
